import Mathlib

/-!
Verification of the Access Control & Compliance Audit Subsystem of the
blood-chem healthcare-records application, as a shallow embedding of the
JavaScript source into Lean 4.

Embedded source files:
* `server/middleware/audit.js` — request classifier and audit-entry creation;
* `server/routes/auth.js` — login (lockout state machine) and change-password;
* the authentication / authorization middleware (`authenticateToken`,
  `requireRole`, `requireHIPAATraining`, `requireDataAccessLevel`);
* the audit CSV export route (`router.get('/export/csv')`);
* `server/models/User.js` — the password-change hooks.

Timestamps are plain naturals (milliseconds for the login route, seconds for
the token issuance check, matching the units each piece of source uses).
-/

namespace Hipaa

/-! ## String containment, modelling JavaScript `String.prototype.includes` -/

/-- Does the list start with the given pattern (character-wise)? -/
def strStartsWith : List Char → List Char → Bool
  | _, [] => true
  | [], _ :: _ => false
  | c :: cs, p :: ps => c == p && strStartsWith cs ps

/-- Does the list contain the pattern as a contiguous sublist? -/
def strFind : List Char → List Char → Bool
  | [], pat => strStartsWith [] pat
  | c :: cs, pat => strStartsWith (c :: cs) pat || strFind cs pat

/-- JavaScript `s.includes(pat)` on strings. -/
def strContains (s pat : String) : Bool :=
  strFind s.toList pat.toList

/-! ## Closed enumerations of the Audit model (`server/models/Audit.js`) -/

/-- The `eventType` ENUM of the Audit model. -/
inductive EventType
  | create | read | update | delete | login | logout | failed_login
  | password_change | data_export | data_import | file_upload | file_download
  | report_generation | access_denied | system_error
  deriving DecidableEq, Repr

/-- The `severity` ENUM of the Audit model. -/
inductive Severity
  | low | medium | high | critical
  deriving DecidableEq, Repr

/-- The `status` ENUM of the Audit model (the spec's "outcome"). -/
inductive Status
  | success | failure | warning
  deriving DecidableEq, Repr

/-- The `resourceType` ENUM of the Audit model. -/
inductive ResourceType
  | user | patient | document | report | auth | system
  deriving DecidableEq, Repr

/-- The `role` ENUM of the User model. -/
inductive Role
  | admin | provider | assistant
  deriving DecidableEq, Repr

/-- The `dataAccessLevel` ENUM of the User model. -/
inductive AccessLevel
  | readonly | limited | full
  deriving DecidableEq, Repr

/-! ## The request-level audit classifier (`server/middleware/audit.js`) -/

/-- Truthiness of the known PHI keys of `req.body` (presence of a truthy
value under each key, as tested by `if (body.firstName || ...)`). -/
structure BodyShape where
  firstName : Bool := false
  lastName : Bool := false
  dateOfBirth : Bool := false
  ssn : Bool := false
  phone : Bool := false
  email : Bool := false
  address : Bool := false
  medicalHistory : Bool := false
  deriving DecidableEq, Repr

/-- Truthiness of the known PHI keys of `req.query`. -/
structure QueryShape where
  name : Bool := false
  dob : Bool := false
  deriving DecidableEq, Repr

/-- The parts of an Express request the classifier reads.  `body` and `query`
are `none` when the corresponding object is absent (falsy) on the request. -/
structure Request where
  method : String
  originalUrl : String
  body : Option BodyShape := none
  query : Option QueryShape := none
  deriving DecidableEq, Repr

/-- `determineEventType` of `server/middleware/audit.js` (lines 104-125). -/
def determineEventType (method url : String) : EventType :=
  if strContains url "/auth/login" then .login
  else if strContains url "/auth/logout" then .logout
  else if strContains url "/auth/refresh" then .login
  else if method == "GET" then .read
  else if method == "POST" then
    if strContains url "/upload" then .file_upload
    else if strContains url "/export" then .data_export
    else if strContains url "/report" then .report_generation
    else .create
  else if method == "PUT" || method == "PATCH" then .update
  else if method == "DELETE" then .delete
  else .read

/-- `determineSeverity` of `server/middleware/audit.js` (lines 128-140). -/
def determineSeverity (method url : String) (statusCode : Nat) : Severity :=
  if statusCode == 401 || statusCode == 403 then .high
  else if strContains url "/patients" || strContains url "/documents" then .high
  else if strContains url "/users" || strContains url "/auth" then .medium
  else .low

/-- `isPHIAccess` of `server/middleware/audit.js` (lines 143-152). -/
def isPHIAccess (url : String) (method : String) : Bool :=
  strContains url "/patients" || strContains url "/documents" ||
    strContains url "/reports" || strContains url "/lab-results"

/-- `determineResourceType` of `server/middleware/audit.js` (lines 155-162). -/
def determineResourceType (url : String) : ResourceType :=
  if strContains url "/patients" then .patient
  else if strContains url "/documents" then .document
  else if strContains url "/users" then .user
  else if strContains url "/reports" then .report
  else if strContains url "/auth" then .auth
  else .system

/-- `extractPHIFields` of `server/middleware/audit.js` (lines 171-190):
returns `none` (JS `null`) when no known PHI key is present. -/
def extractPHIFields (body : Option BodyShape) (query : Option QueryShape) :
    Option (List String) :=
  let fromBody :=
    match body with
    | none => []
    | some b =>
        (if b.firstName || b.lastName then ["name"] else []) ++
        (if b.dateOfBirth then ["dateOfBirth"] else []) ++
        (if b.ssn then ["ssn"] else []) ++
        (if b.phone then ["phone"] else []) ++
        (if b.email then ["email"] else []) ++
        (if b.address then ["address"] else []) ++
        (if b.medicalHistory then ["medicalHistory"] else [])
  let fromQuery :=
    match query with
    | none => []
    | some q =>
        (if q.name then ["name"] else []) ++
        (if q.dob then ["dateOfBirth"] else [])
  let phiFields := fromBody ++ fromQuery
  if phiFields.length > 0 then some phiFields else none

/-- The fields of the audit-entry draft that the generic classifier derives
from the (method, url, statusCode, payload-shape) quadruple. -/
structure AuditEntry where
  eventType : EventType
  severity : Severity
  status : Status
  resourceType : ResourceType
  phiAccessed : Bool
  phiFields : Option (List String)
  deriving DecidableEq, Repr

/-- `skipAuditEndpoints` of `createAuditEntry` (lines 28-33). -/
def skipAuditEndpoints : List String :=
  ["/api/health", "/api/auth/login", "/api/auth/refresh", "/favicon.ico"]

/-- `createAuditEntry` of `server/middleware/audit.js` (lines 25-101),
restricted to the classification fields: `none` models the early return for
the exempt endpoints (no entry created), otherwise the draft is built exactly
as in lines 40-79 of the source. -/
def createAuditEntry (req : Request) (statusCode : Nat) : Option AuditEntry :=
  if skipAuditEndpoints.any (fun endp => strContains req.originalUrl endp) then
    none
  else
    let phiAccessed := isPHIAccess req.originalUrl req.method
    some {
      eventType := determineEventType req.method req.originalUrl
      severity := determineSeverity req.method req.originalUrl statusCode
      status := if statusCode ≥ 400 then .failure else .success
      resourceType := determineResourceType req.originalUrl
      phiAccessed := phiAccessed
      phiFields :=
        if phiAccessed then extractPHIFields req.body req.query else none
    }

/-! ## Actor state (`server/models/User.js`) and the login route
(`server/routes/auth.js`, `router.post('/login')`) -/

/-- The fields of a User row that the authentication subsystem reads or
writes.  Timestamps of `lockedUntil` and `lastLogin` are in milliseconds,
`passwordChangedAt` is in seconds (the unit in which the token check at
`decoded.iat < passwordChangedAt.getTime() / 1000` compares it). -/
structure User where
  failedLoginAttempts : Nat := 0
  lockedUntil : Option Nat := none
  isActive : Bool := true
  hipaaTrainingCompleted : Bool := false
  role : Role := .provider
  dataAccessLevel : AccessLevel := .limited
  passwordChangedAt : Option Nat := none
  lastLogin : Option Nat := none
  deriving DecidableEq, Repr

/-- The outcomes of `router.post('/login')`, one per thrown error /
success response of the handler. -/
inductive LoginResult
  | userNotFound      -- "Invalid email or password" (no user row)
  | locked            -- "Account is temporarily locked ..."
  | invalidPassword   -- "Invalid email or password" (wrong password)
  | inactive          -- "Account is inactive"
  | success
  deriving DecidableEq, Repr

/-- The login-failure threshold hard-coded at `auth.js:158`. -/
def lockoutThreshold : Nat := 5

/-- The lockout window hard-coded at `auth.js:159` (30 minutes, in ms). -/
def lockoutDurationMs : Nat := 30 * 60 * 1000

/-- Lines 151-235 of `auth.js`: the part of the login handler after the
lockout check — password validation (failure increments the counter and on
reaching the threshold sets `lockedUntil`), the `isActive` check, and the
success path resetting the counter and lockout.  `passwordValid` is the
result `await user.validatePassword(password)` would produce. -/
def loginAfterLockCheck (u : User) (passwordValid : Bool) (now : Nat) :
    LoginResult × User :=
  if !passwordValid then
    let attempts := u.failedLoginAttempts + 1
    ( .invalidPassword,
      { u with
          failedLoginAttempts := attempts
          lockedUntil :=
            if attempts ≥ lockoutThreshold then some (now + lockoutDurationMs)
            else u.lockedUntil } )
  else if !u.isActive then (.inactive, u)
  else
    ( .success,
      { u with
          failedLoginAttempts := 0
          lockedUntil := none
          lastLogin := some now } )

/-- Lines 106-235 of `auth.js`: the login handler for a looked-up user.
The lockout check (`user.lockedUntil && user.lockedUntil > new Date()`,
line 134) runs before the password is ever validated; `passwordValid` is
consulted only on the unlocked path. -/
def login (u : Option User) (passwordValid : Bool) (now : Nat) :
    LoginResult × Option User :=
  match u with
  | none => (.userNotFound, none)
  | some user =>
      match user.lockedUntil with
      | some t =>
          if now < t then (.locked, some user)
          else
            let (r, user2) := loginAfterLockCheck user passwordValid now
            (r, some user2)
      | none =>
          let (r, user2) := loginAfterLockCheck user passwordValid now
          (r, some user2)

/-- The `beforeUpdate` hook of `server/models/User.js` (lines 118-123): a
save with a changed password re-hashes it and stamps `passwordChangedAt`;
no other field — in particular not `failedLoginAttempts` or `lockedUntil` —
is touched.  `nowSec` is in seconds. -/
def beforeUpdate (u : User) (passwordChanged : Bool) (nowSec : Nat) : User :=
  if passwordChanged then { u with passwordChangedAt := some nowSec } else u

/-- The outcomes of `router.post('/change-password')` (`auth.js` 298-336). -/
inductive ChangePasswordResult
  | authRequired       -- no `req.user`
  | wrongCurrent       -- "Current password is incorrect"
  | validationFailed   -- "New password does not meet requirements"
  | success
  deriving DecidableEq, Repr

/-- Lines 298-336 of `auth.js`.  The length guard is written
`if (newPassword.length < parseInt(process.env.PASSWORD_MIN_LENGTH) || 12)`:
in JavaScript `<` binds tighter than `||`, so the condition is
`(length < minLen) || 12`, and the literal `12` is truthy — the guard is
taken on every input and the handler always throws the validation error
before reaching the password update.  The embedding keeps that behaviour. -/
def changePassword (u : Option User) (currentPasswordValid : Bool)
    (newPasswordLength minLength : Nat) (nowSec : Nat) :
    ChangePasswordResult × Option User :=
  match u with
  | none => (.authRequired, none)
  | some user =>
      if !currentPasswordValid then (.wrongCurrent, some user)
      else if decide (newPasswordLength < minLength) || true then
        (.validationFailed, some user)
      else
        (.success, some (beforeUpdate user true nowSec))

/-! ## Authentication middleware (`authenticateToken`) and the
authorization gates (`requireRole`, `requireHIPAATraining`,
`requireDataAccessLevel`) -/

/-- What `jwt.verify` makes of the Authorization header: the header is
absent, the token fails the signature/structure check
(`JsonWebTokenError`), the token is past its expiry horizon
(`TokenExpiredError`), or it decodes to a payload carrying the user id and
the issuance time `iat` (seconds). -/
inductive TokenCheck
  | missing
  | malformed
  | expired
  | decoded (userId : Nat) (iat : Nat)
  deriving DecidableEq, Repr

/-- The classification fields of the denial audit entries written by the
middleware (`eventType`, `severity`, `status`). -/
structure AuditDraft where
  eventType : EventType
  severity : Severity
  status : Status
  deriving DecidableEq, Repr

/-- How a middleware invocation ends: an HTTP response is sent, control
passes to the next handler with `req.user` set, or the async middleware's
promise rejects with no response at all (an audit write rejecting inside
the `catch` block of `authenticateToken` is awaited outside any handler). -/
inductive AuthOutcome
  | response (httpStatus : Nat) (message : String)
  | proceed (userId : Nat)
  | unhandledRejection
  deriving DecidableEq, Repr

/-- `authenticateToken` of the authentication middleware (lines 6-128).
`findUser` is `User.findByPk`; `auditOk` tells whether the awaited
`Audit.createEntry` calls resolve (`true`) or reject with a persistence
error (`false`).  Every audit write in the `try` body is awaited, so a
rejection there falls into the `catch` block, whose `error.name` is neither
`TokenExpiredError` nor `JsonWebTokenError`, producing the 500 response of
lines 122-126; a rejection of the audit writes inside the `catch` block
itself escapes the middleware. -/
def authenticateToken (tc : TokenCheck) (findUser : Nat → Option User)
    (auditOk : Bool) : AuthOutcome :=
  match tc with
  | .missing =>
      if auditOk then .response 401 "Authentication token is required"
      else .response 500 "Authentication failed"
  | .expired =>
      if auditOk then .response 401 "Token has expired"
      else .unhandledRejection
  | .malformed =>
      if auditOk then .response 401 "Invalid token"
      else .unhandledRejection
  | .decoded userId iat =>
      match findUser userId with
      | none =>
          if auditOk then .response 401 "User account is inactive or not found"
          else .response 500 "Authentication failed"
      | some user =>
          if !user.isActive then
            if auditOk then .response 401 "User account is inactive or not found"
            else .response 500 "Authentication failed"
          else
            match user.passwordChangedAt with
            | some changedAt =>
                if iat < changedAt then
                  if auditOk then
                    .response 401 "Password was changed, please login again"
                  else .response 500 "Authentication failed"
                else .proceed userId
            | none => .proceed userId

/-- How an authorization gate ends: pass to the next handler, or deny with
an HTTP status, together with the denial audit entry it writes (if any)
before returning the rejection. -/
inductive MwResult
  | next
  | denied (httpStatus : Nat) (audit : Option AuditDraft)
  deriving DecidableEq, Repr

/-- `requireRole` (middleware lines 131-162): denies with 403 and a
`medium`-severity `access_denied` audit entry when the user's role is not
in the required list. -/
def requireRole (roles : List Role) (user : Option User) : MwResult :=
  match user with
  | none => .denied 401 none
  | some u =>
      if roles.contains u.role then .next
      else
        .denied 403 (some { eventType := .access_denied, severity := .medium,
                            status := .failure })

/-- `requireHIPAATraining` (middleware lines 165-194): denies with 403 and
a `high`-severity `access_denied` audit entry when the training flag is
not set. -/
def requireHIPAATraining (user : Option User) : MwResult :=
  match user with
  | none => .denied 401 none
  | some u =>
      if u.hipaaTrainingCompleted then .next
      else
        .denied 403 (some { eventType := .access_denied, severity := .high,
                            status := .failure })

/-- The `accessLevels` table of `requireDataAccessLevel` (lines 206-210). -/
def accessLevelNum : AccessLevel → Nat
  | .readonly => 1
  | .limited => 2
  | .full => 3

/-- `requireDataAccessLevel` (middleware lines 197-237): denies with 403
and a `medium`-severity `access_denied` audit entry when the user's tier is
below the required tier. -/
def requireDataAccessLevel (requiredLevel : AccessLevel) (user : Option User) :
    MwResult :=
  match user with
  | none => .denied 401 none
  | some u =>
      if accessLevelNum u.dataAccessLevel < accessLevelNum requiredLevel then
        .denied 403 (some { eventType := .access_denied, severity := .medium,
                            status := .failure })
      else .next

/-! ## The audit CSV export (`router.get('/export/csv')`, audit routes
lines 1069-1149) -/

/-- The JavaScript value stored in one exported column of an audit row.
`vbool` covers `phiAccessed`, `vnull` absent columns such as a null
`userId` or `errorMessage`; dates and enums reach the template as their
string form. -/
inductive JValue
  | vnull
  | vstr (s : String)
  | vbool (b : Bool)
  deriving DecidableEq, Repr

/-- The interpolation `${field || ''}` of line 1141: a falsy field (null,
false, the empty string) renders as the empty string, any other value as
its JavaScript string form. -/
def renderField : JValue → String
  | .vnull => ""
  | .vstr s => s
  | .vbool b => if b then "true" else ""

/-- The eleven columns selected for one audit row (lines 1126-1138). -/
structure AuditRow where
  timestamp : JValue
  userId : JValue
  ipAddress : JValue
  action : JValue
  resource : JValue
  eventType : JValue
  severity : JValue
  status : JValue
  phiAccessed : JValue
  errorMessage : JValue
  context : JValue
  deriving DecidableEq, Repr

/-- The column values of one data row, in the fixed export order. -/
def exportFields (l : AuditRow) : List String :=
  [renderField l.timestamp, renderField l.userId, renderField l.ipAddress,
   renderField l.action, renderField l.resource, renderField l.eventType,
   renderField l.severity, renderField l.status, renderField l.phiAccessed,
   renderField l.errorMessage, renderField l.context]

/-- The quoting of line 1141, on characters: the field is wrapped in double
quotes; nothing inside is escaped. -/
def quoteChars (f : List Char) : List Char :=
  '"' :: f ++ ['"']

/-- `row.map(field => ...).join(',')` of line 1141, on characters. -/
def rowChars : List (List Char) → List Char
  | [] => []
  | [f] => quoteChars f
  | f :: g :: fs => quoteChars f ++ ',' :: rowChars (g :: fs)

/-- One exported CSV row as a string. -/
def csvRow (fields : List String) : String :=
  String.mk (rowChars (fields.map String.toList))

/-- `csvHeaders` of lines 1112-1124. -/
def csvHeaders : List String :=
  ["Timestamp", "User ID", "IP Address", "Action", "Resource", "Event Type",
   "Severity", "Status", "PHI Accessed", "Error Message", "Context"]

/-- Lines 1140-1142: the header row followed by one row per entry; the
final file is these lines joined with a newline. -/
def csvLines (logs : List AuditRow) : List String :=
  csvRow csvHeaders :: logs.map (fun l => csvRow (exportFields l))

/-- The full exported file (`[csvHeaders, ...csvRows].map(...).join('\n')`). -/
def csvContent (logs : List AuditRow) : String :=
  String.intercalate "\n" (csvLines logs)

/-- Modelled from the spec: the quoting documented in §6 / §4.6 of the
specification — "each field quoted and internal quotes doubled".  This is
the spec-side definition that the code's `quoteChars` is compared with. -/
def specQuoteChars (f : List Char) : List Char :=
  '"' :: (f.flatMap fun c => if c = '"' then ['"', '"'] else [c]) ++ ['"']

/-- Modelled from the spec: a row under the documented quoting. -/
def specRowChars : List (List Char) → List Char
  | [] => []
  | [f] => specQuoteChars f
  | f :: g :: fs => specQuoteChars f ++ ',' :: specRowChars (g :: fs)

/-- Modelled from the spec: read one quoted field under the documented
quoting (a doubled quote is a literal quote, a single quote closes the
field); returns the field's characters and the rest of the input after the
closing quote, or `none` if no closing quote is found. -/
def specParseField : List Char → Option (List Char × List Char)
  | [] => none
  | c :: rest =>
      if c = '"' then
        match rest with
        | c2 :: rest2 =>
            if c2 = '"' then
              match specParseField rest2 with
              | some (f, rem) => some ('"' :: f, rem)
              | none => none
            else some ([], rest)
        | [] => some ([], [])
      else
        match specParseField rest with
        | some (f, rem) => some (c :: f, rem)
        | none => none

/-- Modelled from the spec: re-parse one exported row under the documented
quoting into its list of field values.  `fuel` bounds the number of fields
read (any value at least the field count behaves identically). -/
def specParseRow : Nat → List Char → Option (List (List Char))
  | 0, _ => none
  | fuel + 1, cs =>
      match cs with
      | c :: rest =>
          if c = '"' then
            match specParseField rest with
            | some (f, rem) =>
                match rem with
                | [] => some [f]
                | c2 :: more =>
                    if c2 = ',' then
                      match specParseRow fuel more with
                      | some fs => some (f :: fs)
                      | none => none
                    else none
            | none => none
          else none
      | [] => none

/-! ## Concrete instances used by witnesses and counterexamples -/

/-- A GET request against a patient resource carrying no body and no query. -/
def reqPatientsGet : Request :=
  { method := "GET", originalUrl := "/api/patients/123" }

/-- The entry the classifier derives for `reqPatientsGet` at status 200. -/
def patientsGetEntry : AuditEntry :=
  { eventType := .read, severity := .high, status := .success,
    resourceType := .patient, phiAccessed := true, phiFields := none }

/-- A POST against a patient resource whose body carries an `ssn` key. -/
def reqPatientsSsn : Request :=
  { method := "POST", originalUrl := "/api/patients",
    body := some { ssn := true } }

/-- The entry the classifier derives for `reqPatientsSsn` at status 200. -/
def patientsSsnEntry : AuditEntry :=
  { eventType := .create, severity := .high, status := .success,
    resourceType := .patient, phiAccessed := true, phiFields := some ["ssn"] }

/-- An account locked until timestamp 2000 with the counter at threshold. -/
def lockedUser : User :=
  { failedLoginAttempts := 5, lockedUntil := some 2000 }

/-- An unlocked account with four failed attempts on record. -/
def fourFailuresUser : User :=
  { failedLoginAttempts := 4 }

/-- An active account with three failed attempts on record. -/
def threeFailuresUser : User :=
  { failedLoginAttempts := 3 }

/-- An account whose password last changed at second 5000. -/
def changedAtUser : User :=
  { passwordChangedAt := some 5000 }

/-- An assistant account that passes the training and tier gates. -/
def assistantUser : User :=
  { role := .assistant, hipaaTrainingCompleted := true,
    dataAccessLevel := .full }

/-- The audit draft the role gate writes on a denial. -/
def roleDenialDraft : AuditDraft :=
  { eventType := .access_denied, severity := .medium, status := .failure }

/-- An audit row whose action column contains a double-quote character. -/
def quoteRow : AuditRow :=
  { timestamp := .vnull, userId := .vnull, ipAddress := .vnull,
    action := .vstr "a\"b", resource := .vnull, eventType := .vnull,
    severity := .vnull, status := .vnull, phiAccessed := .vbool false,
    errorMessage := .vnull, context := .vnull }

/-- An audit row with quote-free column values. -/
def cleanRow : AuditRow :=
  { timestamp := .vstr "2024-01-02", userId := .vnull,
    ipAddress := .vstr "10.0.0.1", action := .vstr "GET /api/documents",
    resource := .vstr "/api/documents", eventType := .vstr "read",
    severity := .vstr "high", status := .vstr "success",
    phiAccessed := .vbool false, errorMessage := .vnull,
    context := .vstr "API Request" }

/-! ## Theorems -/

/-- C1: with a future lockout expiry set, the login handler answers
`locked` whatever the password-check result would have been (the password
check is not consulted), and an unlocked failed attempt increments the
counter, setting the expiry to now plus 30 minutes when the counter
reaches the threshold 5. -/
theorem login_lockout_blocks_before_password (u : User) (now t : Nat)
    (hl : u.lockedUntil = some t) (hf : now < t)
    (v : User) (hv : v.lockedUntil = none) :
    (∀ passwordValid, login (some u) passwordValid now = (.locked, some u)) ∧
    login (some v) false now =
      (.invalidPassword,
        some { v with
                 failedLoginAttempts := v.failedLoginAttempts + 1
                 lockedUntil :=
                   if v.failedLoginAttempts + 1 ≥ lockoutThreshold then
                     some (now + lockoutDurationMs)
                   else v.lockedUntil }) := by
  constructor
  · intro passwordValid
    simp [login, hl, hf]
  · simp [login, hv, loginAfterLockCheck]

/-- C1 witness: a concrete account locked until 2000 rejects a correct
password at time 1000, and a concrete fourth-to-fifth failure locks the
account for 30 minutes. -/
theorem login_lockout_blocks_before_password_witness :
    (∀ passwordValid,
        login (some lockedUser) passwordValid 1000 = (.locked, some lockedUser)) ∧
    login (some fourFailuresUser) false 1000 =
      (.invalidPassword,
        some { fourFailuresUser with
                 failedLoginAttempts := fourFailuresUser.failedLoginAttempts + 1
                 lockedUntil :=
                   if fourFailuresUser.failedLoginAttempts + 1 ≥ lockoutThreshold then
                     some (1000 + lockoutDurationMs)
                   else fourFailuresUser.lockedUntil }) :=
  login_lockout_blocks_before_password lockedUser 1000 2000 (by decide)
    (by decide) fourFailuresUser (by decide)

/-- The severity rules of `determineSeverity` only ever answer `high`,
`medium` or `low`; `critical` is never auto-derived. -/
theorem determineSeverity_ne_critical (method url : String) (statusCode : Nat) :
    determineSeverity method url statusCode ≠ .critical := by
  unfold determineSeverity
  repeat' split
  all_goals simp

/-- C3: the audit classifier is deterministic — two invocations on
identical (method, path, statusCode, payload-shape) inputs yield the same
draft — and total: on every input it produces a draft (or the documented
skip) whose fields stay inside the closed enumerations, with `critical`
severity and the `warning` outcome never auto-derived. -/
theorem classifier_deterministic_total (req₁ req₂ : Request) (sc₁ sc₂ : Nat)
    (hr : req₁ = req₂) (hs : sc₁ = sc₂) :
    createAuditEntry req₁ sc₁ = createAuditEntry req₂ sc₂ ∧
    ∀ e, createAuditEntry req₁ sc₁ = some e →
      e.severity ≠ .critical ∧ (e.status = .success ∨ e.status = .failure) := by
  subst hr
  subst hs
  refine ⟨rfl, ?_⟩
  intro e he
  unfold createAuditEntry at he
  split at he
  · exact absurd he (by simp)
  · rw [Option.some.injEq] at he
    subst he
    refine ⟨determineSeverity_ne_critical req₁.method req₁.originalUrl sc₁, ?_⟩
    by_cases hc : sc₁ ≥ 400 <;> simp [hc]

/-- C3 witness: the classifier agrees with itself on a concrete patient
request and its draft stays in the closed sets. -/
theorem classifier_deterministic_total_witness :
    createAuditEntry reqPatientsGet 200 = createAuditEntry reqPatientsGet 200 ∧
    ∀ e, createAuditEntry reqPatientsGet 200 = some e →
      e.severity ≠ .critical ∧ (e.status = .success ∨ e.status = .failure) :=
  classifier_deterministic_total reqPatientsGet reqPatientsGet 200 200 rfl rfl

/-- C6: a token whose issuance time (seconds) predates the account's
`passwordChangedAt` timestamp is rejected with the 401 stale-credential
response, however far the token's own expiry horizon still reaches — the
hypothesis `TokenCheck.decoded` is exactly a signature-valid, unexpired
token. -/
theorem stale_token_rejected (userId iat : Nat) (findUser : Nat → Option User)
    (u : User) (changedAt : Nat) (hu : findUser userId = some u)
    (ha : u.isActive = true) (hp : u.passwordChangedAt = some changedAt)
    (hlt : iat < changedAt) :
    authenticateToken (.decoded userId iat) findUser true =
      .response 401 "Password was changed, please login again" := by
  simp only [authenticateToken]
  rw [hu]
  simp [ha, hp, hlt]

/-- C6 witness: a concrete token issued at second 4000 against an account
whose password changed at second 5000 is rejected. -/
theorem stale_token_rejected_witness :
    authenticateToken (.decoded 7 4000) (fun _ => some changedAtUser) true =
      .response 401 "Password was changed, please login again" :=
  stale_token_rejected 7 4000 (fun _ => some changedAtUser) changedAtUser 5000
    rfl (by decide) (by decide) (by decide)

/-- C9: a classified entry's outcome is `failure` exactly when the
response status code is at least 400, otherwise `success`; the classifier
never derives the `warning` outcome. -/
theorem outcome_failure_iff_4xx (req : Request) (sc : Nat) (e : AuditEntry)
    (h : createAuditEntry req sc = some e) :
    (e.status = .failure ↔ 400 ≤ sc) ∧ e.status ≠ .warning := by
  unfold createAuditEntry at h
  split at h
  · exact absurd h (by simp)
  · rw [Option.some.injEq] at h
    subst h
    by_cases hc : 400 ≤ sc
    · simp [show sc ≥ 400 from hc, hc]
    · simp [show ¬ sc ≥ 400 from hc, hc]

/-- C9 witness: the concrete 200-status patient request classifies with
outcome `success`, satisfying the equivalence. -/
theorem outcome_failure_iff_4xx_witness :
    (patientsGetEntry.status = .failure ↔ 400 ≤ 200) ∧
    patientsGetEntry.status ≠ .warning :=
  outcome_failure_iff_4xx reqPatientsGet 200 patientsGetEntry (by decide)

/-- C10: a request whose URL contains any of the four hard-coded exempt
endpoints produces no audit entry from the request-level classifier — in
particular login and refresh entries can only come from the manual entry
points. -/
theorem exempt_endpoints_skip_audit (req : Request) (sc : Nat)
    (h : ∃ endp ∈ skipAuditEndpoints, strContains req.originalUrl endp = true) :
    createAuditEntry req sc = none := by
  unfold createAuditEntry
  rw [if_pos]
  rw [List.any_eq_true]
  obtain ⟨endp, hm, hc⟩ := h
  exact ⟨endp, hm, hc⟩

/-- C10 witness: a login request is skipped by the classifier. -/
theorem exempt_endpoints_skip_audit_witness :
    createAuditEntry { method := "POST", originalUrl := "/api/auth/login" } 200 =
      none :=
  exempt_endpoints_skip_audit
    { method := "POST", originalUrl := "/api/auth/login" } 200
    ⟨"/api/auth/login", by decide, by decide⟩

/-- C2: in `authenticateToken` the denial audit writes are awaited inside
the handler's `try`, so a rejected persistence call falls into the generic
`catch` and replaces the 401 denial the handler was about to send with a
500 — the persistence failure does reach the client, contradicting the
failure-isolation contract.  The theorem evaluates the middleware at the
failing input (a request with no Authorization header) with a working and
with a failing audit store. -/
theorem audit_failure_changes_auth_response :
    authenticateToken .missing (fun _ => none) true =
      .response 401 "Authentication token is required" ∧
    authenticateToken .missing (fun _ => none) false =
      .response 500 "Authentication failed" ∧
    AuthOutcome.response 500 "Authentication failed" ≠
      AuthOutcome.response 401 "Authentication token is required" := by
  refine ⟨rfl, rfl, by decide⟩

/-- A present PHI field list produced by `extractPHIFields` is never the
empty list: the function returns `null` rather than `[]` when nothing
matches. -/
theorem extractPHIFields_some_ne_nil (b : Option BodyShape)
    (q : Option QueryShape) (fs : List String)
    (h : extractPHIFields b q = some fs) : fs ≠ [] := by
  unfold extractPHIFields at h
  dsimp only at h
  split at h
  · rw [Option.some.injEq] at h
    subst h
    intro hnil
    rename_i hlen
    rw [hnil] at hlen
    simp at hlen
  · exact absurd h (by simp)

/-- C4 counterexample: a plain GET of a patient resource (no body, no
query) classifies with `phiAccessed = true` but a `null` PHI field list —
the claimed invariant fails. -/
theorem phi_entry_without_fields :
    createAuditEntry reqPatientsGet 200 = some patientsGetEntry ∧
    patientsGetEntry.phiAccessed = true ∧
    patientsGetEntry.phiFields = none := by
  decide

/-- C4 amended: an entry with `phiAccessed = true` carries the field list
`extractPHIFields` derives from the request's body and query, and whenever
that list is present at all it is non-empty; it is `null` (not a non-empty
list) when no known PHI key occurs in the request. -/
theorem phi_fields_nonempty_when_present (req : Request) (sc : Nat)
    (e : AuditEntry) (h : createAuditEntry req sc = some e)
    (hphi : e.phiAccessed = true) :
    e.phiFields = extractPHIFields req.body req.query ∧
    ∀ fs, e.phiFields = some fs → fs ≠ [] := by
  unfold createAuditEntry at h
  split at h
  · exact absurd h (by simp)
  · rw [Option.some.injEq] at h
    subst h
    simp only at hphi
    constructor
    · simp only [hphi, if_true]
    · intro fs hfs
      simp only [hphi, if_true] at hfs
      exact extractPHIFields_some_ne_nil req.body req.query fs hfs

/-- C4 amended witness: a patient POST carrying an `ssn` key yields the
non-empty field list `["ssn"]`. -/
theorem phi_fields_nonempty_when_present_witness :
    patientsSsnEntry.phiFields = extractPHIFields reqPatientsSsn.body reqPatientsSsn.query ∧
    ∀ fs, patientsSsnEntry.phiFields = some fs → fs ≠ [] :=
  phi_fields_nonempty_when_present reqPatientsSsn 200 patientsSsnEntry
    (by decide) (by decide)

/-- On the success result of the post-lockout part of the login handler,
the failure counter is zero and the lockout is cleared. -/
theorem loginAfterLockCheck_success (w : User) (pv : Bool) (now : Nat)
    (u' : User) (h : loginAfterLockCheck w pv now = (.success, u')) :
    u'.failedLoginAttempts = 0 ∧ u'.lockedUntil = none := by
  unfold loginAfterLockCheck at h
  split at h
  · exact absurd h (by simp)
  · split at h
    · exact absurd h (by simp)
    · rw [Prod.mk.injEq] at h
      obtain ⟨-, h2⟩ := h
      subst h2
      exact ⟨rfl, rfl⟩

/-- A successful login is always produced by the post-lockout part of the
handler on the same user. -/
theorem login_success_shape (u : User) (pv : Bool) (now : Nat) (u' : User)
    (h : login (some u) pv now = (.success, some u')) :
    loginAfterLockCheck u pv now = (.success, u') := by
  simp only [login] at h
  cases hu : u.lockedUntil with
  | some t =>
      rw [hu] at h
      dsimp only at h
      by_cases hn : now < t
      · rw [if_pos hn] at h
        exact absurd h (by simp)
      · rw [if_neg hn] at h
        simp only [Prod.mk.injEq, Option.some.injEq] at h
        obtain ⟨h1, h2⟩ := h
        rw [Prod.ext_iff]
        exact ⟨h1, h2⟩
  | none =>
      rw [hu] at h
      dsimp only at h
      simp only [Prod.mk.injEq, Option.some.injEq] at h
      obtain ⟨h1, h2⟩ := h
      rw [Prod.ext_iff]
      exact ⟨h1, h2⟩

/-- C7 amended: a successful authentication resets the failure counter to
zero and clears the lockout state, for every prior counter value; a
credential change (a save with a changed password, i.e. the User model's
`beforeUpdate` hook) stamps `passwordChangedAt` but leaves the failure
counter and the lockout state untouched. -/
theorem success_resets_counter (u : User) (now : Nat) (r : LoginResult)
    (u' : User) (h : login (some u) true now = (r, some u'))
    (hr : r = .success) :
    u'.failedLoginAttempts = 0 ∧ u'.lockedUntil = none ∧
    ∀ (v : User) (nowSec : Nat),
      (beforeUpdate v true nowSec).failedLoginAttempts = v.failedLoginAttempts ∧
      (beforeUpdate v true nowSec).lockedUntil = v.lockedUntil := by
  subst hr
  obtain ⟨h1, h2⟩ :=
    loginAfterLockCheck_success u true now u' (login_success_shape u true now u' h)
  exact ⟨h1, h2, fun v nowSec => ⟨by simp [beforeUpdate], by simp [beforeUpdate]⟩⟩

/-- C7 counterexample: the credential-change operation applied to an
account with three failed attempts does change the credential (it stamps
`passwordChangedAt`) yet leaves the failure counter at 3, not 0. -/
theorem credential_change_keeps_counter :
    (beforeUpdate threeFailuresUser true 6000).passwordChangedAt = some 6000 ∧
    (beforeUpdate threeFailuresUser true 6000).failedLoginAttempts = 3 ∧
    (beforeUpdate threeFailuresUser true 6000).failedLoginAttempts ≠ 0 := by
  decide

/-- The user state after the concrete successful login of the C7 witness. -/
def afterLoginUser : User :=
  { lastLogin := some 1000 }

/-- C7 amended witness: a concrete login with three failed attempts on
record succeeds and resets both fields. -/
theorem success_resets_counter_witness :
    afterLoginUser.failedLoginAttempts = 0 ∧ afterLoginUser.lockedUntil = none ∧
    ∀ (v : User) (nowSec : Nat),
      (beforeUpdate v true nowSec).failedLoginAttempts = v.failedLoginAttempts ∧
      (beforeUpdate v true nowSec).lockedUntil = v.lockedUntil :=
  success_resets_counter threeFailuresUser 1000 .success afterLoginUser
    (by decide) rfl

/-- C8 counterexample: a role-membership denial is recorded with severity
`medium`, not the claimed `high`. -/
theorem role_denial_severity_medium :
    requireRole [Role.admin] (some assistantUser) =
      .denied 403 (some roleDenialDraft) ∧
    roleDenialDraft.severity = .medium ∧
    Severity.medium ≠ Severity.high := by
  decide

/-- C8 amended: every authorization denial for an authenticated user
carries a 403 and an `access_denied` / `failure` audit draft, with
severity `high` for training denials and `medium` for role-membership and
data-access-tier denials. -/
theorem denial_severity_by_gate (u : User) (st : Nat) (d : AuditDraft) :
    (∀ roles : List Role, requireRole roles (some u) = .denied st (some d) →
        st = 403 ∧
        d = { eventType := .access_denied, severity := .medium,
              status := .failure }) ∧
    (requireHIPAATraining (some u) = .denied st (some d) →
        st = 403 ∧
        d = { eventType := .access_denied, severity := .high,
              status := .failure }) ∧
    (∀ lvl, requireDataAccessLevel lvl (some u) = .denied st (some d) →
        st = 403 ∧
        d = { eventType := .access_denied, severity := .medium,
              status := .failure }) := by
  refine ⟨?_, ?_, ?_⟩
  · intro roles h
    simp only [requireRole] at h
    split at h
    · exact absurd h (by simp)
    · injection h with h1 h2
      injection h2 with h2
      exact ⟨h1.symm, h2.symm⟩
  · intro h
    simp only [requireHIPAATraining] at h
    split at h
    · exact absurd h (by simp)
    · injection h with h1 h2
      injection h2 with h2
      exact ⟨h1.symm, h2.symm⟩
  · intro lvl h
    simp only [requireDataAccessLevel] at h
    split at h
    · injection h with h1 h2
      injection h2 with h2
      exact ⟨h1.symm, h2.symm⟩
    · exact absurd h (by simp)

/-- C8 amended witness: the concrete role denial of an assistant against
an admin-only gate. -/
theorem denial_severity_by_gate_witness :
    403 = 403 ∧
    roleDenialDraft = { eventType := .access_denied, severity := .medium,
                        status := .failure } :=
  (denial_severity_by_gate assistantUser 403 roleDenialDraft).1 [Role.admin]
    (by decide)

/-- Reading one quoted field back from the code's output: when the field
text contains no quote character and the input continues after the closing
quote with anything but another quote, the parse returns exactly the field
text and the continuation. -/
theorem specParseField_append (f rem : List Char) (hf : '"' ∉ f)
    (hrem : rem.head? ≠ some '"') :
    specParseField (f ++ '"' :: rem) = some (f, rem) := by
  induction f with
  | nil =>
      cases rem with
      | nil => rfl
      | cons c cs =>
          have hc : ¬ c = '"' := by
            intro hcq
            exact hrem (by rw [hcq]; rfl)
          simp [specParseField, hc]
  | cons c cs ih =>
      have hc : ¬ c = '"' := by
        intro hcq
        exact hf (hcq ▸ List.mem_cons_self c cs)
      have hcs : '"' ∉ cs := fun hm => hf (List.mem_cons_of_mem c hm)
      simp only [List.cons_append]
      rw [specParseField.eq_def]
      simp only [hc, if_false]
      rw [ih hcs]

/-- Re-parsing one exported row under the documented quoting recovers the
field values, provided every field is free of quote characters and the
fuel covers the field count. -/
theorem specParseRow_rowChars (fields : List (List Char)) (fuel : Nat)
    (hne : fields ≠ []) (hq : ∀ f ∈ fields, '"' ∉ f)
    (hfuel : fields.length ≤ fuel) :
    specParseRow fuel (rowChars fields) = some fields := by
  induction fields generalizing fuel with
  | nil => exact absurd rfl hne
  | cons f fs ih =>
      cases fuel with
      | zero => exact absurd hfuel (by simp)
      | succ g =>
          have hqf : '"' ∉ f := hq f (List.mem_cons_self f fs)
          cases fs with
          | nil =>
              have h1 : rowChars [f] = '"' :: (f ++ '"' :: []) := by
                simp [rowChars, quoteChars]
              rw [h1]
              simp [specParseRow, specParseField_append f [] hqf (by simp)]
          | cons f2 fs2 =>
              have h1 : rowChars (f :: f2 :: fs2) =
                  '"' :: (f ++ '"' :: ',' :: rowChars (f2 :: fs2)) := by
                simp [rowChars, quoteChars]
              rw [h1]
              have h2 : specParseRow g (rowChars (f2 :: fs2)) = some (f2 :: fs2) :=
                ih g (by simp)
                  (fun x hx => hq x (List.mem_cons_of_mem f hx))
                  (by simp only [List.length_cons] at hfuel ⊢; omega)
              simp [specParseRow,
                specParseField_append f (',' :: rowChars (f2 :: fs2)) hqf
                  (by simp), h2]

/-- C5 counterexample: for an audit row whose action column contains a
double quote, the exported row does not follow the documented quoting (the
internal quote is not doubled) and re-parsing it under that quoting fails
instead of reconstructing the field values. -/
theorem export_quote_not_doubled :
    csvRow (exportFields quoteRow) ≠
      String.mk (specRowChars ((exportFields quoteRow).map String.toList)) ∧
    specParseRow 11 (csvRow (exportFields quoteRow)).toList = none := by
  decide

/-- C5 amended: the export of N filtered entries yields one header row
plus N data rows, every field wrapped in double quotes; internal quotes
are NOT doubled, so re-parsing under the documented quoting reconstructs
the exported field values exactly when no rendered field contains a quote
character (falsy persisted values — null, false, the empty string —
render as the empty string). -/
theorem export_roundtrip_quote_free (logs : List AuditRow)
    (hq : ∀ l ∈ logs, ∀ f ∈ exportFields l, '"' ∉ f.toList) :
    (csvLines logs).length = logs.length + 1 ∧
    specParseRow 11 (csvRow csvHeaders).toList =
      some (csvHeaders.map String.toList) ∧
    ∀ l ∈ logs, specParseRow 11 (csvRow (exportFields l)).toList =
      some ((exportFields l).map String.toList) := by
  refine ⟨by simp [csvLines], by decide, ?_⟩
  intro l hl
  have hmem : ∀ f ∈ (exportFields l).map String.toList, '"' ∉ f := by
    intro f hfm
    rw [List.mem_map] at hfm
    obtain ⟨s, hs, hst⟩ := hfm
    rw [← hst]
    exact hq l hl s hs
  exact specParseRow_rowChars ((exportFields l).map String.toList) 11
    (by simp [exportFields]) hmem (by simp [exportFields])

/-- C5 amended witness: the concrete quote-free audit row exports to one
header and one data row and parses back to its rendered field values. -/
theorem export_roundtrip_quote_free_witness :
    (csvLines [cleanRow]).length = [cleanRow].length + 1 ∧
    specParseRow 11 (csvRow csvHeaders).toList =
      some (csvHeaders.map String.toList) ∧
    ∀ l ∈ [cleanRow], specParseRow 11 (csvRow (exportFields l)).toList =
      some ((exportFields l).map String.toList) :=
  export_roundtrip_quote_free [cleanRow] (by decide)

end Hipaa
